import Mathlib

/-!
Shallow embedding of the hybrid recommendation engine in
`backend/app/services/recommendations.py` (class `RecommendationEngine`).

The engine runs read-only SQL queries over two tables (books and user
interactions).  We embed a repository snapshot as two Lean lists and
translate each query into an executable function over the snapshot:
filters become `List.filter`, `GROUP BY` + `COUNT` becomes counting of
matching rows grouped in the natural (repository) order of the books
list, `ORDER BY ... DESC` becomes a stable merge sort by the key in
descending order (the natural ordering of the repository is the order
of the underlying list, and SQL result order on ties is taken to be
that stable order), and `LIMIT n` becomes `List.take n`.  Python floats
are embedded as rationals (all constants in the source are small
decimal literals), timestamps as integers counted in seconds
(`timedelta(days=d)` is `d * 86400` seconds), and uuids as naturals.
-/

/-- Modelled from the spec: the interaction-kind enum (`InteractionType`)
is referenced by the engine but its declaration is not in the sources;
the spec lists kinds view, like, bookmark, download, share and asks for a
default for unrecognized kinds, embedded here as an extra constructor. -/
inductive InteractionType where
  | view
  | like
  | bookmark
  | download
  | share
  | other (kind : String)
deriving DecidableEq, Repr

/-- Modelled from the spec: the book lifecycle status enum; the engine
only ever distinguishes `completed` from everything else. -/
inductive BookStatus where
  | draft
  | generating
  | completed
  | failed
  | published
  | archived
deriving DecidableEq, Repr

/-- Modelled from the spec: the book record fields the engine reads
(identity, owning user, status, optional category, tags). -/
structure Book where
  id : Nat
  user_id : Nat
  status : BookStatus
  category : Option String
  tags : List String
deriving DecidableEq, Repr

/-- Modelled from the spec: one interaction row
(user id, book id, kind, timestamp), plus a row id counted by SQL. -/
structure UserInteraction where
  id : Nat
  user_id : Nat
  book_id : Nat
  interaction_type : InteractionType
  created_at : Int
deriving DecidableEq, Repr

/-- A point-in-time snapshot of the two repositories the engine queries. -/
structure Repo where
  books : List Book
  interactions : List UserInteraction
deriving DecidableEq, Repr

/-! ### Python dict as an association list

A Python dict keeps insertion order; assigning to an existing key
replaces the value in place.  The engine only uses dicts keyed by ids. -/

/-- Assignment `d[k] = v` on a Python dict: replace in place if the key
exists, else append. -/
def dictSet {β : Type} : List (Nat × β) → Nat → β → List (Nat × β)
  | [], k, v => [(k, v)]
  | p :: rest, k, v => if p.1 == k then (k, v) :: rest else p :: dictSet rest k v

/-- Lookup `d.get(k)` on a Python dict. -/
def dictFind {β : Type} : List (Nat × β) → Nat → Option β
  | [], _ => none
  | p :: rest, k => if p.1 == k then some p.2 else dictFind rest k

/-- Lookup `d.get(k, 0)` with default 0. -/
def dictGetD (d : List (Nat × ℚ)) (k : Nat) : ℚ :=
  (dictFind d k).getD 0

/-- Membership `k in d` on a Python dict. -/
def dictHasKey {β : Type} (d : List (Nat × β)) (k : Nat) : Bool :=
  (dictFind d k).isSome

/-! ### Ordering and grouping helpers -/

/-- Stable sort, descending by `key`: the embedding of
`ORDER BY key DESC` over the natural order of `l`, and of the Python
`sorted(..., key=key, reverse=True)` (both stable; insertion sort is a
stable sort, so it computes the same list). -/
def sortDescBy {α β : Type} [LinearOrder β] (key : α → β) (l : List α) : List α :=
  l.insertionSort (fun a b => key b ≤ key a)

/-- First-occurrence deduplication: the order in which `GROUP BY` keys
are formed while scanning rows in natural order. -/
def firstDedup (l : List Nat) : List Nat :=
  l.foldl (fun acc k => if acc.contains k then acc else acc ++ [k]) []

/-! ### The engine -/

/-- Embeds `RecommendationEngine._get_interaction_weight`: pure lookup
with default 1.0 for kinds outside the table. -/
def get_interaction_weight : InteractionType → ℚ
  | .download => 5
  | .like => 3
  | .bookmark => 5/2
  | .share => 2
  | .view => 1
  | .other _ => 1

/-- Embeds `RecommendationEngine._get_user_interactions`: select the
interactions of the user and build the dict
`weights[interaction.book_id] = weight` row by row (a later row for the
same book overwrites the earlier weight). -/
def get_user_interactions (repo : Repo) (user_id : Nat) : List (Nat × ℚ) :=
  (repo.interactions.filter (fun i => i.user_id == user_id)).foldl
    (fun w i => dictSet w i.book_id (get_interaction_weight i.interaction_type)) []

/-- Truthiness of the optional `exclude_book_ids` filter: the source
guards each `.where(Book.id.not_in(exclude_book_ids))` with
`if exclude_book_ids:`, so `None` and `[]` disable the filter. -/
def notExcluded (excl : Option (List Nat)) (bid : Nat) : Bool :=
  match excl with
  | none => true
  | some l => if l.isEmpty then true else !(l.contains bid)

/-- Truthiness of an optional string (`if category:`): `None` and the
empty string are falsy. -/
def strTruthy : Option String → Bool
  | none => false
  | some s => !s.isEmpty

/-- The `interaction_type.in_([LIKE, DOWNLOAD])` predicate used by the
collaborative scorer. -/
def isStrong (i : UserInteraction) : Bool :=
  i.interaction_type == .like || i.interaction_type == .download

/-- Embeds `RecommendationEngine._collaborative_filtering`:
1. collect the ids of books the user liked/downloaded (empty means cold
   start, return no candidates);
2. group the like/download rows of other users on those books by user,
   order by row count descending, keep at most 50 similar users;
3. inner-join books with the like/download rows of those similar users,
   restricted to completed books not owned by the user (and not excluded
   when the exclusion filter is active), group by book, order by row
   count descending, keep `limit * 2` rows, the count cast to float as
   the raw score. -/
def collaborative_filtering (repo : Repo) (user_id : Nat) (limit : Nat)
    (exclude_book_ids : Option (List Nat)) : List (Book × ℚ) :=
  let user_liked_books :=
    (repo.interactions.filter (fun i => i.user_id == user_id && isStrong i)).map
      (fun i => i.book_id)
  if user_liked_books.isEmpty then []
  else
    let likeRows := repo.interactions.filter (fun i =>
      user_liked_books.contains i.book_id && isStrong i && i.user_id != user_id)
    let grouped := (firstDedup (likeRows.map (fun i => i.user_id))).map
      (fun u => (u, (likeRows.filter (fun i => i.user_id == u)).length))
    let similar_user_ids := ((sortDescBy (fun p => p.2) grouped).take 50).map Prod.fst
    if similar_user_ids.isEmpty then []
    else
      let candidates := repo.books.filter (fun b =>
        b.status == .completed && b.user_id != user_id &&
        notExcluded exclude_book_ids b.id)
      let counted := (candidates.map (fun b =>
        (b, (repo.interactions.filter (fun i =>
          i.book_id == b.id && similar_user_ids.contains i.user_id &&
          isStrong i)).length))).filter (fun p => p.2 != 0)
      ((sortDescBy (fun p => p.2) counted).take (limit * 2)).map
        (fun p => (p.1, (p.2 : ℚ)))

/-- The SQL `case` score `category_score` of the content scorer:
3.0 when the category of the book is in the reference category set
(NULL never matches an IN list). -/
def category_score (user_categories : List String) (b : Book) : ℚ :=
  match b.category with
  | some c => if user_categories.contains c then 3 else 0
  | none => 0

/-- The SQL `case` score `tag_score` of the content scorer: 5.0 when the
tags of the book overlap the reference tag set. -/
def tag_score (user_tags : List String) (b : Book) : ℚ :=
  if b.tags.any (fun t => user_tags.contains t) then 5 else 0

/-- The inner join of completed books with the interactions of a user
(one row per matching book/interaction pair, books in natural order),
whose first 20 rows seed the content scorer. -/
def userBookRows (repo : Repo) (user_id : Nat) : List Book :=
  (repo.books.filter (fun b => b.status == .completed)).flatMap
    (fun b => (repo.interactions.filter (fun i =>
      i.book_id == b.id && i.user_id == user_id)).map (fun _ => b))

/-- Embeds `RecommendationEngine._content_based_filtering`:
1. take up to 20 rows of the user/book interaction join as the
   reference books (no rows means cold start, return no candidates);
2. collect their category values (skipping falsy ones) and tag values;
3. score every completed book that is not a reference book, is not
   owned by the user and survives the exclusion filter with
   `category_score + tag_score`, order by that score descending and
   keep `limit * 2` rows (zero scores included). -/
def content_based_filtering (repo : Repo) (user_id : Nat) (limit : Nat)
    (exclude_book_ids : Option (List Nat)) : List (Book × ℚ) :=
  let user_books := (userBookRows repo user_id).take 20
  if user_books.isEmpty then []
  else
    let user_tags := user_books.foldl
      (fun acc b => acc ++ b.tags.filter (fun t => !acc.contains t)) []
    let user_categories := user_books.foldl
      (fun acc b =>
        match b.category with
        | some c => if !c.isEmpty && !acc.contains c then acc ++ [c] else acc
        | none => acc) []
    let book_ids := user_books.map (fun b => b.id)
    let candidates := repo.books.filter (fun b =>
      !(book_ids.contains b.id) && b.status == .completed &&
      b.user_id != user_id && notExcluded exclude_book_ids b.id)
    let scored := candidates.map (fun b =>
      (b, category_score user_categories b + tag_score user_tags b))
    (sortDescBy (fun p => p.2) scored).take (limit * 2)

/-- One loop of the score-accumulation of the combiners:
`scores[book.id] = scores.get(book.id, 0) + score * weight`. -/
def addScores (weight : ℚ) (scores : List (Nat × ℚ))
    (recs : List (Book × ℚ)) : List (Nat × ℚ) :=
  recs.foldl (fun s p => dictSet s p.1.id (dictGetD s p.1.id + p.2 * weight)) scores

/-- Embeds `RecommendationEngine._combine_recommendations`: accumulate
weighted scores (collaborative weight 0.6, content weight 0.4) into a
dict, then stable-sort the concatenation of the two candidate lists
(each entry kept, so a book on both lists occurs twice) by its combined
score, descending, and drop the scores.  The `user_interactions`
argument is never read. -/
def combine_recommendations (collab_recs content_recs : List (Book × ℚ))
    (user_interactions : List (Nat × ℚ)) : List Book :=
  let collab_weight : ℚ := 3/5
  let content_weight : ℚ := 2/5
  let scores := addScores content_weight (addScores collab_weight [] collab_recs)
    content_recs
  let sorted_books := sortDescBy (fun p => dictGetD scores p.1.id)
    ((collab_recs ++ content_recs).filter (fun p => dictHasKey scores p.1.id))
  sorted_books.map Prod.fst

/-- Embeds `RecommendationEngine._get_popular_books`: all completed
books (category filter and exclusion filter applied when truthy), left
outer join with interactions, grouped per book (a book with no
interactions counts 0), ordered by count descending, first `limit`. -/
def get_popular_books_impl (repo : Repo) (limit : Nat)
    (exclude_book_ids : Option (List Nat)) (category : Option String) : List Book :=
  let candidates := repo.books.filter (fun b =>
    b.status == .completed &&
    (if strTruthy category then b.category == category else true) &&
    notExcluded exclude_book_ids b.id)
  let counted := candidates.map (fun b =>
    (b, (repo.interactions.filter (fun i => i.book_id == b.id)).length))
  ((sortDescBy (fun p => p.2) counted).take limit).map Prod.fst

/-- Embeds `RecommendationEngine.get_personalized_recommendations`:
cold start (no interactions at all) delegates to the popularity ranker
with no category; otherwise combine the two scorers, each asked for
`limit * 2` candidates, and truncate to `limit`. -/
def get_personalized_recommendations (repo : Repo) (user_id : Nat) (limit : Nat)
    (exclude_book_ids : Option (List Nat)) : List Book :=
  let user_interactions := get_user_interactions repo user_id
  if user_interactions.isEmpty then
    get_popular_books_impl repo limit exclude_book_ids none
  else
    let collab_recs := collaborative_filtering repo user_id (limit * 2) exclude_book_ids
    let content_recs := content_based_filtering repo user_id (limit * 2) exclude_book_ids
    (combine_recommendations collab_recs content_recs user_interactions).take limit

/-- Embeds `RecommendationEngine.get_popular_books` (facade over the
ranker, same argument order as the source). -/
def get_popular_books (repo : Repo) (limit : Nat) (category : Option String)
    (exclude_book_ids : Option (List Nat)) : List Book :=
  get_popular_books_impl repo limit exclude_book_ids category

/-- Embeds `RecommendationEngine.get_trending_books`: no validation of
`days`; cutoff is `now - days` days, then the inner join of completed
books with interactions dated at or after the cutoff, grouped per book,
ordered by count descending, first `limit`. -/
def get_trending_books (repo : Repo) (days : Int) (limit : Nat) (now : Int) : List Book :=
  let cutoff_date := now - days * 86400
  let counted := ((repo.books.filter (fun b => b.status == .completed)).map
    (fun b => (b, (repo.interactions.filter (fun i =>
      i.book_id == b.id && decide (cutoff_date ≤ i.created_at))).length))).filter
    (fun p => p.2 != 0)
  ((sortDescBy (fun p => p.2) counted).take limit).map Prod.fst

/-- The runtime failure of the engine: the similar-books collaborative
query is built with the attribute chain
`.orderInteraction.id).desc_by(func.count(User())` in the source, which
accesses a nonexistent attribute of the Select object and raises
AttributeError before the query can run. -/
inductive EngineError where
  | attributeError
deriving DecidableEq, Repr

/-- Embeds `RecommendationEngine._find_content_similar_books`: the
reference sets are the category of the source book (when truthy) and
its tags; if both are empty return no candidates, otherwise score every
completed book other than the source with `category_score + tag_score`,
order by that score descending and keep `limit` rows. -/
def find_content_similar_books (repo : Repo) (source_book : Book) (limit : Nat) :
    List (Book × ℚ) :=
  let user_categories : List String :=
    if strTruthy source_book.category then [source_book.category.getD ""] else []
  let user_tags := source_book.tags
  if user_categories.isEmpty && user_tags.isEmpty then []
  else
    let scored := (repo.books.filter (fun b =>
      b.id != source_book.id && b.status == .completed)).map
      (fun b => (b, category_score user_categories b + tag_score user_tags b))
    (sortDescBy (fun p => p.2) scored).take limit

/-- Embeds `RecommendationEngine._find_collaborative_similar_books`:
collect the users with a like interaction on the book; with none,
return the empty list; otherwise the source builds the candidate query
through the broken attribute chain and raises AttributeError. -/
def find_collaborative_similar_books (repo : Repo) (book_id : Nat) (limit : Nat) :
    Except EngineError (List (Book × ℚ)) :=
  let users_who_liked := (repo.interactions.filter (fun i =>
    i.book_id == book_id && i.interaction_type == .like)).map (fun i => i.user_id)
  if users_who_liked.isEmpty then .ok []
  else .error .attributeError

/-- The second accumulation loop of `_combine_similar_books`, with the
`if book.id != source_book_id` guard. -/
def addScoresExcl (weight : ℚ) (src : Nat) (scores : List (Nat × ℚ))
    (recs : List (Book × ℚ)) : List (Nat × ℚ) :=
  recs.foldl (fun s p =>
    if p.1.id != src then dictSet s p.1.id (dictGetD s p.1.id + p.2 * weight) else s)
    scores

/-- Embeds `RecommendationEngine._combine_similar_books`: accumulate
0.5-weighted scores from both lists (collaborative entries equal to the
source book skipped), build the id-to-book dict over the concatenation
(later entries overwrite), sort the score keys (in insertion order) by
score descending and map them back through the book dict. -/
def combine_similar_books (content_similar collab_similar : List (Book × ℚ))
    (source_book_id : Nat) : List Book :=
  let scores := addScoresExcl (1/2) source_book_id
    (addScores (1/2) [] content_similar) collab_similar
  let all_books := (content_similar ++ collab_similar).foldl
    (fun d p => dictSet d p.1.id p.1) []
  let sorted_ids := (sortDescBy (fun p => p.2) scores).map Prod.fst
  (sorted_ids.filter (fun bid => dictHasKey all_books bid)).filterMap
    (fun bid => dictFind all_books bid)

/-- Embeds `RecommendationEngine.get_similar_books`: fetch the source
book (first match on the primary key); a missing book yields the empty
list; otherwise both similarity scorers are asked for `limit * 2`
candidates (the collaborative one raising AttributeError whenever the
book has a liker), the candidates combined and truncated to `limit`. -/
def get_similar_books (repo : Repo) (book_id : Nat) (limit : Nat) :
    Except EngineError (List Book) :=
  match repo.books.find? (fun b => b.id == book_id) with
  | none => .ok []
  | some source_book =>
    let content_similar := find_content_similar_books repo source_book (limit * 2)
    match find_collaborative_similar_books repo book_id (limit * 2) with
    | .error e => .error e
    | .ok collab_similar =>
      .ok ((combine_similar_books content_similar collab_similar book_id).take limit)

/-- The combined score the recommendation combiner assigns to a book id:
sum of collaborative sub-scores times 0.6 plus sum of content sub-scores
times 0.4 (a closed form for the accumulation loops). -/
def combined_score (collab_recs content_recs : List (Book × ℚ)) (k : Nat) : ℚ :=
  ((collab_recs.filter (fun p => p.1.id == k)).map Prod.snd).sum * (3/5) +
  ((content_recs.filter (fun p => p.1.id == k)).map Prod.snd).sum * (2/5)

instance {e a : Type} [DecidableEq e] [DecidableEq a] : DecidableEq (Except e a) := fun x y =>
  match x, y with
  | .ok u, .ok v =>
    if h : u = v then .isTrue (h ▸ rfl) else .isFalse (fun hh => h (Except.ok.inj hh))
  | .error u, .error v =>
    if h : u = v then .isTrue (h ▸ rfl) else .isFalse (fun hh => h (Except.error.inj hh))
  | .ok _, .error _ => .isFalse Except.noConfusion
  | .error _, .ok _ => .isFalse Except.noConfusion

/-! ### Concrete repository snapshots used as test inputs -/

/-- A completed book with one interaction dated at time 100. -/
def bookT1 : Book := ⟨1, 0, .completed, none, []⟩

/-- Snapshot with one completed book and one view interaction at time 100. -/
def repoT1 : Repo := ⟨[bookT1], [⟨1, 2, 1, .view, 100⟩]⟩

/-- A completed book owned by user 7. -/
def bookOwn7 : Book := ⟨1, 7, .completed, none, []⟩

/-- Snapshot with one completed book owned by user 7 and no interactions. -/
def repoOwn7 : Repo := ⟨[bookOwn7], []⟩

/-- A completed book owned by user 0, no category or tags. -/
def bookPlain : Book := ⟨1, 0, .completed, none, []⟩

/-- A second completed book owned by user 0, different id. -/
def bookPlain2 : Book := ⟨2, 0, .completed, none, []⟩

/-- A completed book with category x and no tags. -/
def bookCatX : Book := ⟨1, 0, .completed, some "x", []⟩

/-- A completed book with category y and no tags, id 2. -/
def bookCatY : Book := ⟨2, 0, .completed, some "y", []⟩

/-- Snapshot where user 9 viewed the category-x book and the category-y
book matches neither reference bonus. -/
def repoZeroScore : Repo := ⟨[bookCatX, bookCatY], [⟨1, 9, 1, .view, 0⟩]⟩

/-- A completed book with category x and one tag. -/
def bookLiked : Book := ⟨1, 0, .completed, some "x", ["t"]⟩

/-- Snapshot where user 3 liked the book, so the similar-books
collaborative query is reached. -/
def repoLiked : Repo := ⟨[bookLiked], [⟨1, 3, 1, .like, 0⟩]⟩

/-- A second completed book sharing category x with `bookLiked`, id 2. -/
def bookCatX2 : Book := ⟨2, 0, .completed, some "x", []⟩

/-- Snapshot with two completed category-x books and no interactions. -/
def repoSimilar : Repo := ⟨[bookLiked, bookCatX2], []⟩

/-- Books owned by user 5 for the collaborative scenario. -/
def bookOwn5a : Book := ⟨10, 5, .completed, none, []⟩

/-- Second book owned by user 5, id 20. -/
def bookOwn5b : Book := ⟨20, 5, .completed, none, []⟩

/-- Snapshot where user 1 liked book 10 and user 2 liked books 10 and
20, so user 1 gets a personalized (non cold-start) result. -/
def repoWarm : Repo := ⟨[bookOwn5a, bookOwn5b],
  [⟨1, 1, 10, .like, 0⟩, ⟨2, 2, 10, .like, 0⟩, ⟨3, 2, 20, .like, 0⟩]⟩

/-! ### Lemmas about the sorting and dict helpers -/

theorem mem_sortDescBy {α β : Type} [LinearOrder β] {key : α → β} {l : List α} {a : α} :
    a ∈ sortDescBy key l ↔ a ∈ l :=
  List.mem_insertionSort _

theorem mem_take_sortDescBy {α β : Type} [LinearOrder β] {key : α → β} {l : List α}
    {n : Nat} {a : α} (h : a ∈ (sortDescBy key l).take n) : a ∈ l :=
  mem_sortDescBy.mp (List.take_subset _ _ h)

theorem pairwise_sortDescBy {α β : Type} [LinearOrder β] (key : α → β) (l : List α) :
    (sortDescBy key l).Pairwise (fun a b => key b ≤ key a) := by
  haveI : IsTotal α (fun a b => key b ≤ key a) := ⟨fun a b => le_total (key b) (key a)⟩
  haveI : IsTrans α (fun a b => key b ≤ key a) := ⟨fun _ _ _ hab hbc => le_trans hbc hab⟩
  exact List.sorted_insertionSort _ l

theorem sublist_sortDescBy {α β : Type} [LinearOrder β] {key : α → β} {l c : List α}
    (hr : c.Pairwise (fun a b => key b ≤ key a)) (hc : c.Sublist l) :
    c.Sublist (sortDescBy key l) :=
  List.sublist_insertionSort hr hc

theorem perm_sortDescBy {α β : Type} [LinearOrder β] (key : α → β) (l : List α) :
    (sortDescBy key l).Perm l :=
  List.perm_insertionSort _ l

theorem dictFind_dictSet_self {β : Type} (d : List (Nat × β)) (k : Nat) (v : β) :
    dictFind (dictSet d k v) k = some v := by
  induction d with
  | nil => simp [dictSet, dictFind]
  | cons p rest ih =>
    by_cases h : p.1 = k
    · simp [dictSet, dictFind, h]
    · simp [dictSet, dictFind, h, ih]

theorem dictFind_dictSet_ne {β : Type} (d : List (Nat × β)) (k : Nat) (v : β) {j : Nat}
    (hj : j ≠ k) : dictFind (dictSet d k v) j = dictFind d j := by
  induction d with
  | nil => simp [dictSet, dictFind, Ne.symm hj]
  | cons p rest ih =>
    by_cases h : p.1 = k
    · simp [dictSet, dictFind, h, Ne.symm hj]
    · by_cases h2 : p.1 = j
      · simp [dictSet, dictFind, h, h2, hj, Ne.symm hj]
      · simp [dictSet, dictFind, h, h2, ih]

theorem dictGetD_dictSet_self (d : List (Nat × ℚ)) (k : Nat) (v : ℚ) :
    dictGetD (dictSet d k v) k = v := by
  simp [dictGetD, dictFind_dictSet_self]

theorem dictGetD_dictSet_ne (d : List (Nat × ℚ)) (k : Nat) (v : ℚ) {j : Nat}
    (hj : j ≠ k) : dictGetD (dictSet d k v) j = dictGetD d j := by
  simp [dictGetD, dictFind_dictSet_ne _ _ _ hj]

theorem mem_dictSet {β : Type} {d : List (Nat × β)} {k : Nat} {v : β} {q : Nat × β}
    (h : q ∈ dictSet d k v) : q = (k, v) ∨ q ∈ d := by
  induction d with
  | nil => simpa [dictSet] using h
  | cons p rest ih =>
    rw [dictSet] at h
    by_cases hp : p.1 = k
    · rw [if_pos (by simpa using hp)] at h
      rcases List.mem_cons.mp h with h1 | h1
      · exact Or.inl h1
      · exact Or.inr (List.mem_cons_of_mem _ h1)
    · rw [if_neg (by simpa using hp)] at h
      rcases List.mem_cons.mp h with h1 | h1
      · exact Or.inr (h1 ▸ List.mem_cons_self p rest)
      · rcases ih h1 with h2 | h2
        · exact Or.inl h2
        · exact Or.inr (List.mem_cons_of_mem _ h2)

theorem dictFind_mem {β : Type} {d : List (Nat × β)} {k : Nat} {v : β}
    (h : dictFind d k = some v) : (k, v) ∈ d := by
  induction d with
  | nil => simp [dictFind] at h
  | cons p rest ih =>
    rw [dictFind] at h
    by_cases hp : p.1 = k
    · rw [if_pos (by simpa using hp)] at h
      have hv : p.2 = v := Option.some.inj h
      have : (k, v) = p := by
        cases p
        simp_all
      exact this ▸ List.mem_cons_self p rest
    · rw [if_neg (by simpa using hp)] at h
      exact List.mem_cons_of_mem _ (ih h)

theorem dictHasKey_dictSet {β : Type} (d : List (Nat × β)) (k : Nat) (v : β) (j : Nat) :
    dictHasKey (dictSet d k v) j = true ↔ j = k ∨ dictHasKey d j = true := by
  by_cases hj : j = k
  · subst hj
    simp [dictHasKey, dictFind_dictSet_self]
  · simp [dictHasKey, dictFind_dictSet_ne _ _ _ hj, hj]

/-! ### Lemmas about the score-accumulation loops -/

theorem dictGetD_addScores (w : ℚ) (recs : List (Book × ℚ)) :
    ∀ (init : List (Nat × ℚ)) (k : Nat),
      dictGetD (addScores w init recs) k =
        dictGetD init k + ((recs.filter (fun p => p.1.id == k)).map Prod.snd).sum * w := by
  induction recs with
  | nil => intro init k; simp [addScores]
  | cons p rest ih =>
    intro init k
    have hstep : addScores w init (p :: rest) =
        addScores w (dictSet init p.1.id (dictGetD init p.1.id + p.2 * w)) rest := by
      simp [addScores]
    rw [hstep, ih]
    by_cases hk : p.1.id = k
    · subst hk
      rw [dictGetD_dictSet_self]
      simp [List.filter_cons]
      ring
    · rw [dictGetD_dictSet_ne _ _ _ (Ne.symm hk)]
      simp [List.filter_cons, hk]

theorem dictHasKey_addScores (w : ℚ) (recs : List (Book × ℚ)) :
    ∀ (init : List (Nat × ℚ)) (k : Nat),
      (dictHasKey (addScores w init recs) k = true ↔
        dictHasKey init k = true ∨ ∃ p ∈ recs, p.1.id = k) := by
  induction recs with
  | nil => intro init k; simp [addScores]
  | cons p rest ih =>
    intro init k
    have hstep : addScores w init (p :: rest) =
        addScores w (dictSet init p.1.id (dictGetD init p.1.id + p.2 * w)) rest := by
      simp [addScores]
    rw [hstep, ih]
    rw [dictHasKey_dictSet]
    constructor
    · rintro (h | h) 
      · rcases h with h | h
        · exact Or.inr ⟨p, List.mem_cons_self _ _, h.symm⟩
        · exact Or.inl h
      · rcases h with ⟨q, hq, hqe⟩
        exact Or.inr ⟨q, List.mem_cons_of_mem _ hq, hqe⟩
    · rintro (h | ⟨q, hq, hqe⟩)
      · exact Or.inl (Or.inr h)
      · rcases List.mem_cons.mp hq with h1 | h1
        · exact Or.inl (Or.inl (h1 ▸ hqe).symm)
        · exact Or.inr ⟨q, h1, hqe⟩

/-- The score dict built by `combine_recommendations` computes the
closed-form combined score. -/
theorem dictGetD_combine (collab_recs content_recs : List (Book × ℚ)) (k : Nat) :
    dictGetD (addScores (2/5) (addScores (3/5) [] collab_recs) content_recs) k =
      combined_score collab_recs content_recs k := by
  rw [dictGetD_addScores, dictGetD_addScores, combined_score]
  simp [dictGetD, dictFind]

/-- Every id occurring in the input lists is a key of the score dict of
`combine_recommendations`. -/
theorem dictHasKey_combine (collab_recs content_recs : List (Book × ℚ))
    {p : Book × ℚ} (hp : p ∈ collab_recs ++ content_recs) :
    dictHasKey (addScores (2/5) (addScores (3/5) [] collab_recs) content_recs) p.1.id
      = true := by
  rcases List.mem_append.mp hp with h | h
  · exact (dictHasKey_addScores _ _ _ _).mpr
      (Or.inl ((dictHasKey_addScores _ _ _ _).mpr (Or.inr ⟨p, h, rfl⟩)))
  · exact (dictHasKey_addScores _ _ _ _).mpr (Or.inr ⟨p, h, rfl⟩)

/-- A fold with `dictSet` only produces pairs that are either in the
start dict or of the shape `(key p, val p)` for an element of the list. -/
theorem mem_foldl_dictSet {β : Type} (keyf : Book × ℚ → Nat) (valf : Book × ℚ → β)
    (src : List (Book × ℚ)) :
    ∀ (init : List (Nat × β)) (q : Nat × β),
      q ∈ src.foldl (fun d p => dictSet d (keyf p) (valf p)) init →
      q ∈ init ∨ ∃ p ∈ src, q = (keyf p, valf p) := by
  induction src with
  | nil => intro init q h; exact Or.inl h
  | cons p rest ih =>
    intro init q h
    rw [List.foldl_cons] at h
    rcases ih _ q h with h1 | ⟨r, hr, hre⟩
    · rcases mem_dictSet h1 with h2 | h2
      · exact Or.inr ⟨p, List.mem_cons_self _ _, h2⟩
      · exact Or.inl h2
    · exact Or.inr ⟨r, List.mem_cons_of_mem _ hr, hre⟩

/-! ### Membership facts about the scorers and rankers -/

theorem mem_collaborative_filtering {repo : Repo} {user_id limit : Nat}
    {excl : Option (List Nat)} {p : Book × ℚ}
    (h : p ∈ collaborative_filtering repo user_id limit excl) :
    p.1 ∈ repo.books ∧ p.1.status = .completed ∧ p.1.user_id ≠ user_id ∧
      notExcluded excl p.1.id = true := by
  simp only [collaborative_filtering] at h
  split at h
  · simp at h
  · split at h
    · simp at h
    · obtain ⟨q, hq, hqe⟩ := List.mem_map.mp h
      have hq2 := mem_take_sortDescBy hq
      have hq3 := (List.mem_filter.mp hq2).1
      obtain ⟨b, hb, hbe⟩ := List.mem_map.mp hq3
      obtain ⟨hbmem, hbpred⟩ := List.mem_filter.mp hb
      have hb1 : p.1 = b := by rw [← hqe, ← hbe]
      subst hb1
      simp only [Bool.and_eq_true, beq_iff_eq, bne_iff_ne] at hbpred
      exact ⟨hbmem, hbpred.1.1, hbpred.1.2, hbpred.2⟩

/-- Common shape of both content-scored candidate queries: filter,
score with `category_score + tag_score`, sort descending, truncate. -/
theorem mem_scored_take {books : List Book} {pred : Book → Bool}
    {cats tags : List String} {n : Nat} {p : Book × ℚ}
    (h : p ∈ (sortDescBy (fun q => q.2) ((books.filter pred).map
        (fun b => (b, category_score cats b + tag_score tags b)))).take n) :
    p.1 ∈ books ∧ pred p.1 = true ∧
      p.2 = category_score cats p.1 + tag_score tags p.1 := by
  have hq2 := mem_take_sortDescBy h
  obtain ⟨b, hb, hbe⟩ := List.mem_map.mp hq2
  obtain ⟨hbmem, hbpred⟩ := List.mem_filter.mp hb
  subst hbe
  exact ⟨hbmem, hbpred, rfl⟩

theorem mem_content_based_filtering {repo : Repo} {user_id limit : Nat}
    {excl : Option (List Nat)} {p : Book × ℚ}
    (h : p ∈ content_based_filtering repo user_id limit excl) :
    p.1 ∈ repo.books ∧ p.1.status = .completed ∧ p.1.user_id ≠ user_id ∧
      notExcluded excl p.1.id = true ∧
      (∃ cats tags, p.2 = category_score cats p.1 + tag_score tags p.1) := by
  simp only [content_based_filtering] at h
  split at h
  · simp at h
  · obtain ⟨hbmem, hbpred, hsc⟩ := mem_scored_take h
    simp only [Bool.and_eq_true, beq_iff_eq, bne_iff_ne] at hbpred
    exact ⟨hbmem, hbpred.1.1.2, hbpred.1.2, hbpred.2, _, _, hsc⟩

theorem mem_find_content_similar_books {repo : Repo} {src : Book} {limit : Nat}
    {p : Book × ℚ}
    (h : p ∈ find_content_similar_books repo src limit) :
    p.1 ∈ repo.books ∧ p.1.status = .completed ∧ p.1.id ≠ src.id ∧
      (∃ cats tags, p.2 = category_score cats p.1 + tag_score tags p.1) := by
  simp only [find_content_similar_books] at h
  split at h
  · rw [if_neg (by simp)] at h
    obtain ⟨hbmem, hbpred, hsc⟩ := mem_scored_take h
    simp only [Bool.and_eq_true, beq_iff_eq, bne_iff_ne] at hbpred
    exact ⟨hbmem, hbpred.2, hbpred.1, _, _, hsc⟩
  · split at h
    · simp at h
    · obtain ⟨hbmem, hbpred, hsc⟩ := mem_scored_take h
      simp only [Bool.and_eq_true, beq_iff_eq, bne_iff_ne] at hbpred
      exact ⟨hbmem, hbpred.2, hbpred.1, _, _, hsc⟩

theorem mem_get_popular_books_impl {repo : Repo} {limit : Nat}
    {excl : Option (List Nat)} {cat : Option String} {b : Book}
    (h : b ∈ get_popular_books_impl repo limit excl cat) :
    b ∈ repo.books ∧ b.status = .completed ∧ notExcluded excl b.id = true := by
  simp only [get_popular_books_impl] at h
  obtain ⟨q, hq, hqe⟩ := List.mem_map.mp h
  have hq2 := mem_take_sortDescBy hq
  obtain ⟨c, hc, hce⟩ := List.mem_map.mp hq2
  obtain ⟨hcmem, hcpred⟩ := List.mem_filter.mp hc
  have hb1 : b = c := by rw [← hqe, ← hce]
  subst hb1
  simp only [Bool.and_eq_true, beq_iff_eq] at hcpred
  exact ⟨hcmem, hcpred.1.1, hcpred.2⟩

theorem mem_get_trending_books {repo : Repo} {days : Int} {limit : Nat} {now : Int}
    {b : Book} (h : b ∈ get_trending_books repo days limit now) :
    b ∈ repo.books ∧ b.status = .completed := by
  simp only [get_trending_books] at h
  obtain ⟨q, hq, hqe⟩ := List.mem_map.mp h
  have hq2 := mem_take_sortDescBy hq
  have hq3 := (List.mem_filter.mp hq2).1
  obtain ⟨c, hc, hce⟩ := List.mem_map.mp hq3
  obtain ⟨hcmem, hcpred⟩ := List.mem_filter.mp hc
  have hb1 : b = c := by rw [← hqe, ← hce]
  subst hb1
  simp only [beq_iff_eq] at hcpred
  exact ⟨hcmem, hcpred⟩

theorem mem_combine_recommendations {collab_recs content_recs : List (Book × ℚ)}
    {ui : List (Nat × ℚ)} {b : Book}
    (h : b ∈ combine_recommendations collab_recs content_recs ui) :
    ∃ s, (b, s) ∈ collab_recs ++ content_recs := by
  simp only [combine_recommendations] at h
  obtain ⟨q, hq, hqe⟩ := List.mem_map.mp h
  have hq2 := mem_sortDescBy.mp hq
  have hq3 := (List.mem_filter.mp hq2).1
  exact ⟨q.2, by rwa [← hqe, Prod.mk.eta]⟩

theorem mem_combine_similar_books {content_similar collab_similar : List (Book × ℚ)}
    {src : Nat} {b : Book}
    (h : b ∈ combine_similar_books content_similar collab_similar src) :
    ∃ s, (b, s) ∈ content_similar ++ collab_similar := by
  simp only [combine_similar_books] at h
  obtain ⟨bid, hbid, hfind⟩ := List.mem_filterMap.mp h
  have hmem := dictFind_mem hfind
  rcases mem_foldl_dictSet (fun p => p.1.id) (fun p => p.1)
      (content_similar ++ collab_similar) [] _ hmem with h1 | ⟨p, hp, hpe⟩
  · simp at h1
  · have : b = p.1 := congrArg Prod.snd hpe
    exact ⟨p.2, by rw [this, Prod.mk.eta]; exact hp⟩

/-- The similar-books collaborative query can only return the empty
candidate list: any liker of the book makes it raise instead. -/
theorem find_collaborative_similar_books_ok {repo : Repo} {book_id limit : Nat}
    {l : List (Book × ℚ)}
    (h : find_collaborative_similar_books repo book_id limit = .ok l) : l = [] := by
  simp only [find_collaborative_similar_books] at h
  split at h
  · exact (Except.ok.inj h).symm
  · exact absurd h (by simp)

/-! ### The claims -/

/-- C9: the interaction-weight function is a pure total lookup returning
download 5.0, like 3.0, bookmark 2.5, share 2.0, view 1.0 and 1.0 for
any unrecognized kind. -/
theorem C9_interaction_weights :
    get_interaction_weight .download = 5 ∧ get_interaction_weight .like = 3 ∧
    get_interaction_weight .bookmark = 5/2 ∧ get_interaction_weight .share = 2 ∧
    get_interaction_weight .view = 1 ∧
    ∀ s : String, get_interaction_weight (.other s) = 1 :=
  ⟨rfl, rfl, rfl, rfl, rfl, fun _ => rfl⟩

/-- C10: the recommendation combiner never reads its
`user_interactions` argument, so its output is identical for any two
values of it — the interaction weights of the requesting user have no
influence on the final ranking. -/
theorem C10_combiner_independent_of_user_interactions
    (collab_recs content_recs : List (Book × ℚ)) (ui ui2 : List (Nat × ℚ)) :
    combine_recommendations collab_recs content_recs ui =
      combine_recommendations collab_recs content_recs ui2 := rfl

/-- C7: when no book has the requested id, get_similar_books returns
the empty list and no error. -/
theorem C7_similar_missing_book_empty (repo : Repo) (book_id limit : Nat)
    (h : ∀ b ∈ repo.books, b.id ≠ book_id) :
    get_similar_books repo book_id limit = .ok [] := by
  have hfind : repo.books.find? (fun b => b.id == book_id) = none :=
    List.find?_eq_none.mpr (fun b hb => by simpa using h b hb)
  simp only [get_similar_books, hfind]

theorem C7_witness :
    (∀ b ∈ repoOwn7.books, b.id ≠ 99) ∧ get_similar_books repoOwn7 99 5 = .ok [] :=
  ⟨by decide, C7_similar_missing_book_empty repoOwn7 99 5 (by decide)⟩

/-- C6: for a user with zero interactions of any kind, personalized
recommendations equal the popular-books output at the same limit with
no category and the same exclusions. -/
theorem C6_cold_start_equals_popular (repo : Repo) (user_id limit : Nat)
    (excl : Option (List Nat)) (h : ∀ i ∈ repo.interactions, i.user_id ≠ user_id) :
    get_personalized_recommendations repo user_id limit excl =
      get_popular_books repo limit none excl := by
  have hfilter : repo.interactions.filter (fun i => i.user_id == user_id) = [] :=
    List.filter_eq_nil_iff.mpr (fun i hi => by simpa using h i hi)
  have hui : get_user_interactions repo user_id = [] := by
    simp only [get_user_interactions, hfilter, List.foldl_nil]
  simp [get_personalized_recommendations, hui, get_popular_books]

theorem C6_witness :
    (∀ i ∈ repoOwn7.interactions, i.user_id ≠ 5) ∧
      get_personalized_recommendations repoOwn7 5 10 none =
        get_popular_books repoOwn7 10 none none :=
  ⟨by decide, C6_cold_start_equals_popular repoOwn7 5 10 none (by decide)⟩

/-- C5 (code bug): with an existing source book that has at least one
liker, get_similar_books reaches the garbled candidate query of
`_find_collaborative_similar_books` and raises AttributeError instead
of returning the combined similar books. -/
theorem C5_similar_books_raises :
    get_similar_books repoLiked 1 5 = .error .attributeError := rfl

/-- C1 (amended): get_trending_books performs no validation of days;
for any non-positive days the cutoff lies at or after now, so when
every interaction is dated strictly before now the result is empty —
the call computes normally instead of rejecting. -/
theorem C1_trending_no_validation (repo : Repo) (days : Int) (limit : Nat) (now : Int)
    (hd : days ≤ 0) (h : ∀ i ∈ repo.interactions, i.created_at < now) :
    get_trending_books repo days limit now = [] := by
  have hcut : now ≤ now - days * 86400 := by omega
  have hempty : ∀ b : Book, repo.interactions.filter (fun i =>
      i.book_id == b.id && decide (now - days * 86400 ≤ i.created_at)) = [] := by
    intro b
    refine List.filter_eq_nil_iff.mpr (fun i hi => ?_)
    have hlt := h i hi
    simp only [Bool.and_eq_true, decide_eq_true_eq, not_and]
    intro _
    omega
  simp only [get_trending_books]
  have hmain : ((repo.books.filter (fun b => b.status == .completed)).map
      (fun b => (b, (repo.interactions.filter (fun i =>
        i.book_id == b.id && decide (now - days * 86400 ≤ i.created_at))).length))).filter
      (fun p => p.2 != 0) = [] := by
    refine List.filter_eq_nil_iff.mpr (fun p hp => ?_)
    obtain ⟨b, hb, hbe⟩ := List.mem_map.mp hp
    subst hbe
    simp only [bne_iff_ne, ne_eq, Decidable.not_not]
    rw [hempty b]
    rfl
  rw [hmain]
  simp [sortDescBy]

/-- C1 counterexample: at days = 0 the call is not rejected — it issues
the query and computes a result (here a nonempty one, counting the
interaction dated exactly now). -/
theorem C1_counterexample :
    get_trending_books repoT1 0 10 100 = [bookT1] := by with_unfolding_all decide

theorem C1_witness :
    ((0 : Int) ≤ 0) ∧ (∀ i ∈ repoT1.interactions, i.created_at < 200) ∧
      get_trending_books repoT1 0 10 200 = [] :=
  ⟨by decide, by decide, C1_trending_no_validation repoT1 0 10 200 (by decide) (by decide)⟩

/-- C2 counterexample: on the cold-start path the popularity ranker has
no owner filter, so a user with no interactions can be recommended
their own book. -/
theorem C2_cold_start_self_recommendation :
    bookOwn7 ∈ get_personalized_recommendations repoOwn7 7 10 none ∧
      bookOwn7.user_id = 7 := by with_unfolding_all decide

/-- C2 (amended): when the requesting user has at least one interaction
(the non-cold-start path), no returned book is owned by the user; the
cold-start popularity fallback applies no owner filter. -/
theorem C2_no_self_rec_outside_cold_start (repo : Repo) (user_id limit : Nat)
    (excl : Option (List Nat)) (h : get_user_interactions repo user_id ≠ [])
    (b : Book) (hb : b ∈ get_personalized_recommendations repo user_id limit excl) :
    b.user_id ≠ user_id := by
  simp only [get_personalized_recommendations] at hb
  rw [if_neg (by simpa [List.isEmpty_iff] using h)] at hb
  have hb2 := List.take_subset _ _ hb
  obtain ⟨s, hs⟩ := mem_combine_recommendations hb2
  rcases List.mem_append.mp hs with h1 | h1
  · exact (mem_collaborative_filtering h1).2.2.1
  · exact (mem_content_based_filtering h1).2.2.1

theorem C2_witness :
    get_user_interactions repoWarm 1 ≠ [] ∧
      bookOwn5a ∈ get_personalized_recommendations repoWarm 1 5 none ∧
      bookOwn5a.user_id ≠ 1 :=
  ⟨by with_unfolding_all decide, by with_unfolding_all decide,
   C2_no_self_rec_outside_cold_start repoWarm 1 5 none (by with_unfolding_all decide)
     bookOwn5a (by with_unfolding_all decide)⟩

/-- C8: every book returned by any of the four public operations has
status completed (for get_similar_books, whenever it returns at all
rather than raising). -/
theorem C8_status_completed :
    (∀ (repo : Repo) (user_id limit : Nat) (excl : Option (List Nat)) (b : Book),
        b ∈ get_personalized_recommendations repo user_id limit excl →
        b.status = .completed) ∧
    (∀ (repo : Repo) (book_id limit : Nat) (books : List Book) (b : Book),
        get_similar_books repo book_id limit = .ok books → b ∈ books →
        b.status = .completed) ∧
    (∀ (repo : Repo) (limit : Nat) (cat : Option String) (excl : Option (List Nat))
        (b : Book), b ∈ get_popular_books repo limit cat excl → b.status = .completed) ∧
    (∀ (repo : Repo) (days : Int) (limit : Nat) (now : Int) (b : Book),
        b ∈ get_trending_books repo days limit now → b.status = .completed) := by
  refine ⟨?_, ?_, ?_, ?_⟩
  · intro repo user_id limit excl b hb
    simp only [get_personalized_recommendations] at hb
    split at hb
    · exact (mem_get_popular_books_impl hb).2.1
    · have hb2 := List.take_subset _ _ hb
      obtain ⟨s, hs⟩ := mem_combine_recommendations hb2
      rcases List.mem_append.mp hs with h1 | h1
      · exact (mem_collaborative_filtering h1).2.1
      · exact (mem_content_based_filtering h1).2.1
  · intro repo book_id limit books b heq hb
    simp only [get_similar_books] at heq
    split at heq
    · cases Except.ok.inj heq
      simp at hb
    · split at heq
      · exact absurd heq (by simp)
      · rename_i collab hcollab
        cases Except.ok.inj heq
        have hb2 := List.take_subset _ _ hb
        obtain ⟨s, hs⟩ := mem_combine_similar_books hb2
        have hc0 : collab = [] := find_collaborative_similar_books_ok hcollab
        subst hc0
        rw [List.append_nil] at hs
        exact (mem_find_content_similar_books hs).2.1
  · intro repo limit cat excl b hb
    exact (mem_get_popular_books_impl (by simpa [get_popular_books] using hb)).2.1
  · intro repo days limit now b hb
    exact (mem_get_trending_books hb).2

theorem C8_witness :
    bookOwn7.status = .completed ∧ bookCatX2.status = .completed ∧
    bookOwn7.status = .completed ∧ bookT1.status = .completed :=
  ⟨C8_status_completed.1 repoOwn7 7 10 none bookOwn7 (by with_unfolding_all decide),
   C8_status_completed.2.1 repoSimilar 1 5 [bookCatX2] bookCatX2
     (by with_unfolding_all decide) (by decide),
   C8_status_completed.2.2.1 repoOwn7 10 none none bookOwn7 (by with_unfolding_all decide),
   C8_status_completed.2.2.2 repoT1 7 10 100 bookT1 (by with_unfolding_all decide)⟩

/-- C4 counterexample: a candidate matching neither the category bonus
nor the tag bonus gets score 0 and is still returned by the content
scorer. -/
theorem C4_counterexample :
    content_based_filtering repoZeroScore 9 5 none = [(bookCatY, 0)] := by
  with_unfolding_all decide

/-- C4 (amended): the content scorer assigns each candidate exactly the
sum of the two independent bonuses — 3.0 for a category match plus 5.0
for a tag overlap — so every returned score is 0, 3, 5 or 8 (at most
8); score-0 candidates are returned, merely ranked last, not dropped. -/
theorem C4_content_score_values :
    (∀ (repo : Repo) (user_id limit : Nat) (excl : Option (List Nat)) (p : Book × ℚ),
        p ∈ content_based_filtering repo user_id limit excl →
        p.2 = 0 ∨ p.2 = 3 ∨ p.2 = 5 ∨ p.2 = 8) ∧
    (∀ (repo : Repo) (src : Book) (limit : Nat) (p : Book × ℚ),
        p ∈ find_content_similar_books repo src limit →
        p.2 = 0 ∨ p.2 = 3 ∨ p.2 = 5 ∨ p.2 = 8) := by
  have hval : ∀ (cats tags : List String) (b : Book),
      category_score cats b + tag_score tags b = 0 ∨
      category_score cats b + tag_score tags b = 3 ∨
      category_score cats b + tag_score tags b = 5 ∨
      category_score cats b + tag_score tags b = 8 := by
    intro cats tags b
    have hcat : category_score cats b = 0 ∨ category_score cats b = 3 := by
      unfold category_score
      split
      · split
        · exact Or.inr rfl
        · exact Or.inl rfl
      · exact Or.inl rfl
    have htag : tag_score tags b = 0 ∨ tag_score tags b = 5 := by
      unfold tag_score
      split
      · exact Or.inr rfl
      · exact Or.inl rfl
    rcases hcat with h1 | h1 <;> rcases htag with h2 | h2 <;> rw [h1, h2] <;> norm_num
  constructor
  · intro repo user_id limit excl p hp
    obtain ⟨-, -, -, -, cats, tags, hsc⟩ := mem_content_based_filtering hp
    rw [hsc]
    exact hval cats tags p.1
  · intro repo src limit p hp
    obtain ⟨-, -, -, cats, tags, hsc⟩ := mem_find_content_similar_books hp
    rw [hsc]
    exact hval cats tags p.1

theorem C4_witness :
    (bookCatY, (0 : ℚ)) ∈ content_based_filtering repoZeroScore 9 5 none ∧
      ((0 : ℚ) = 0 ∨ (0 : ℚ) = 3 ∨ (0 : ℚ) = 5 ∨ (0 : ℚ) = 8) :=
  ⟨by with_unfolding_all decide,
   C4_content_score_values.1 repoZeroScore 9 5 none (bookCatY, 0)
     (by with_unfolding_all decide)⟩

/-- The membership filter of `combine_recommendations` keeps every
entry (every encountered book id is a key of the score dict), and the
sort key is exactly the closed-form combined score, so the combiner is
the stable descending sort of the concatenated candidate lists. -/
theorem combine_recommendations_eq (collab_recs content_recs : List (Book × ℚ))
    (ui : List (Nat × ℚ)) :
    combine_recommendations collab_recs content_recs ui =
      (sortDescBy (fun p => combined_score collab_recs content_recs p.1.id)
        (collab_recs ++ content_recs)).map Prod.fst := by
  simp only [combine_recommendations]
  rw [List.filter_eq_self.mpr (fun p hp => dictHasKey_combine collab_recs content_recs hp)]
  have hkey : (fun p : Book × ℚ =>
      dictGetD (addScores (2/5) (addScores (3/5) [] collab_recs) content_recs) p.1.id) =
      (fun p : Book × ℚ => combined_score collab_recs content_recs p.1.id) :=
    funext (fun p => dictGetD_combine collab_recs content_recs p.1.id)
  rw [hkey]

/-- C3 counterexample: a book on both candidate lists is returned
twice, and an entry whose combined score is zero is still returned. -/
theorem C3_counterexample :
    combine_recommendations [(bookPlain, 2)] [(bookPlain, 1)] [] =
      [bookPlain, bookPlain] ∧
    combine_recommendations [] [(bookPlain2, 0)] [] = [bookPlain2] := by
  with_unfolding_all decide

/-- C3 (amended): the combiner accumulates
`score[book_id] += sub_score * weight` over both lists (weights 0.6 and
0.4) and returns one output entry per input entry of the concatenation
(so a book on both lists appears twice and zero-score entries are
kept), ordered descending by combined score, with encounter order
preserved on ties. -/
theorem C3_combiner_behavior (collab_recs content_recs : List (Book × ℚ))
    (ui : List (Nat × ℚ)) :
    ((combine_recommendations collab_recs content_recs ui).Perm
        ((collab_recs ++ content_recs).map Prod.fst)) ∧
    ((combine_recommendations collab_recs content_recs ui).Pairwise
        (fun b b2 => combined_score collab_recs content_recs b2.id ≤
          combined_score collab_recs content_recs b.id)) ∧
    (∀ p q : Book × ℚ, [p, q].Sublist (collab_recs ++ content_recs) →
        combined_score collab_recs content_recs p.1.id =
          combined_score collab_recs content_recs q.1.id →
        [p.1, q.1].Sublist (combine_recommendations collab_recs content_recs ui)) := by
  rw [combine_recommendations_eq]
  refine ⟨(perm_sortDescBy _ _).map _, ?_, ?_⟩
  · have hp := pairwise_sortDescBy
      (fun p : Book × ℚ => combined_score collab_recs content_recs p.1.id)
      (collab_recs ++ content_recs)
    exact List.Pairwise.map Prod.fst (fun _ _ h => h) hp
  · intro p q hsub heq
    have hpair : [p, q].Pairwise (fun a b : Book × ℚ =>
        combined_score collab_recs content_recs b.1.id ≤
          combined_score collab_recs content_recs a.1.id) :=
      List.pairwise_pair.mpr (le_of_eq heq.symm)
    exact (sublist_sortDescBy hpair hsub).map Prod.fst

theorem C3_witness :
    ([(bookPlain, (2 : ℚ)), (bookPlain2, 3)].Sublist
        ([(bookPlain, (2 : ℚ))] ++ [(bookPlain2, (3 : ℚ))])) ∧
    combined_score [(bookPlain, 2)] [(bookPlain2, 3)] bookPlain.id =
      combined_score [(bookPlain, 2)] [(bookPlain2, 3)] bookPlain2.id ∧
    [bookPlain, bookPlain2].Sublist
      (combine_recommendations [(bookPlain, 2)] [(bookPlain2, 3)] []) :=
  ⟨List.Sublist.refl _, by norm_num [combined_score, bookPlain, bookPlain2],
   (C3_combiner_behavior [(bookPlain, 2)] [(bookPlain2, 3)] []).2.2
     (bookPlain, 2) (bookPlain2, 3) (List.Sublist.refl _)
     (by norm_num [combined_score, bookPlain, bookPlain2])⟩
